import Mathlib

/-!
Shallow embedding of the LLM-Tracing-Demo repository
(`src/app/services/llm_service.py`, `src/app/main.py`) and proofs about it.

Conventions of the embedding:
* Python exceptions are modelled with `Except`.
* Python truthiness of strings (`"" ` is falsy) appears as explicit `= ""` tests.
* `None`-able Python values are `Option`s.
-/

namespace LLMTracingDemo

/--
The single exception class `LLMServiceError` of `llm_service.py` is raised at
exactly three sites with three fixed messages; we model it as an inductive with
one constructor per message (line 47, lines 55/69, line 67 respectively).
-/
inductive LLMServiceError where
  | callFailed
  | emptyResponse
  | malformedResponse
deriving DecidableEq, Repr

/-- The message string each raise site of `llm_service.py` attaches. -/
def LLMServiceError.message : LLMServiceError → String
  | .callFailed => "Failed to call LLM via OpenRouter"
  | .emptyResponse => "Empty response from LLM"
  | .malformedResponse => "Unexpected LLM response structure"

/--
One element of a list-shaped `message.content`.  In the source (line 60) a part
is either a `dict` (queried with `part.get("text", "")`) or any other object
(rendered with `str(part)`); for a non-dict part we carry its `str` rendering.
-/
inductive ContentPart where
  | dict (fields : List (String × String))
  | obj (strRepr : String)
deriving DecidableEq, Repr

/-- Line 60: `part.get("text", "") if isinstance(part, dict) else str(part)`. -/
def partText : ContentPart → String
  | .dict fields => (fields.lookup "text").getD ""
  | .obj s => s

/-- The shape of `getattr(message, "content", None)` (line 51). -/
inductive MessageContent where
  | none
  | str (s : String)
  | parts (l : List ContentPart)
deriving DecidableEq, Repr

/-- A `completion.choices[i].message` object. -/
structure ChatMessage where
  content : MessageContent
deriving DecidableEq, Repr

/-- The provider completion object: only its `choices` list is consulted. -/
structure ChatCompletion where
  choices : List ChatMessage
deriving DecidableEq, Repr

/-- Whitespace characters removed by the Python method `str.strip`. -/
def pySpace (c : Char) : Bool :=
  c = ' ' || c = '\t' || c = '\n' || c = '\r' || c = '\x0b' || c = '\x0c'

/-- The Python method `str.strip` with no argument: drop whitespace from both ends. -/
def pyStrip (s : String) : String :=
  String.mk (((s.data.dropWhile pySpace).reverse.dropWhile pySpace).reverse)

/-- Lines 59-62: `text_parts = [...]` over the content list. -/
def collectTextParts (l : List ContentPart) : List String :=
  l.map partText

/-- Line 63: `combined = "\n".join(t for t in text_parts if t)`. -/
def combineParts (l : List ContentPart) : String :=
  String.intercalate "\n" ((collectTextParts l).filter (fun t => t ≠ ""))

/--
Body of the `try` block at lines 49-65, given the content of `choices[0]`:
`.ok (some text)` models a `return text`, `.ok none` models falling through to
line 69, `.error e` models an exception escaping the `try` body (the explicit
raise at line 55 carries the message "Empty response from LLM"; note that the
returns at lines 54 and 65 exit the function without touching the `except`).
-/
def tryExtract : MessageContent → Except LLMServiceError (Option String)
  | .str s =>
      if pyStrip s = "" then .error .emptyResponse else .ok (Option.some s)
  | .parts l =>
      if l = [] then .ok Option.none
      else if pyStrip (combineParts l) = "" then .ok Option.none
      else .ok (Option.some (combineParts l))
  | .none => .ok Option.none

/--
Lines 49-51 plus `tryExtract`: `completion.choices[0]` raises `IndexError`
when `choices` is empty; that exception escapes the `try` body and is mapped
below.  We tag it with the error the `except` clause will produce.
-/
def extractFromCompletion (completion : ChatCompletion) : Except LLMServiceError (Option String) :=
  match completion.choices with
  | [] => .error .malformedResponse
  | message :: _ => tryExtract message.content

/--
The `_call_llm` closure of `get_llm_response` (lines 31-69), with the outbound
provider call abstracted to its outcome: `.error excMessage` when
`client.chat.completions.create` raises any exception, `.ok completion` when it
returns.  The first `except` (line 46) turns any provider exception into
`LLMServiceError.callFailed`; the second `except` (line 66) turns ANY exception
escaping the extraction `try` body — including the `LLMServiceError` raised at
line 55 — into `LLMServiceError.malformedResponse`; falling through to line 69
raises `LLMServiceError.emptyResponse`.
-/
def getLlmResponse (providerCall : Except String ChatCompletion) : Except LLMServiceError String :=
  match providerCall with
  | .error _ => .error .callFailed
  | .ok completion =>
      match extractFromCompletion completion with
      | .ok (Option.some text) => .ok text
      | .ok Option.none => .error .emptyResponse
      | .error _ => .error .malformedResponse

/--
Normalization of a single provider response content, as performed by
`get_llm_response` on a completion whose sole choice carries that content.
-/
def normalizeContent (content : MessageContent) : Except LLMServiceError String :=
  getLlmResponse (.ok ⟨[⟨content⟩]⟩)

/--
Metadata attached to the traced operation by lines 71-74 of `llm_service.py`:
`propagate_attributes(metadata={"request_id": request_id})`, guarded by the
truthiness test `if request_id:` (so `None` and `""` attach nothing).
The session id is never attached anywhere in the service.
-/
def serviceTraceMetadata (requestId : Option String) : List (String × String) :=
  match requestId with
  | Option.some rid => if rid ≠ "" then [("request_id", rid)] else []
  | Option.none => []

/-- A parameter of a Python function: its name and whether it has a default. -/
structure PyParam where
  name : String
  hasDefault : Bool
deriving DecidableEq, Repr

/--
The parameter list of `get_llm_response` (line 22 of `llm_service.py`):
`(prompt: str, request_id: Optional[str] = None)`.  The `@observe` decorator
wraps the function with `(*args, **kwargs)` and forwards them unchanged, so
positional binding is decided by this list.
-/
def getLlmResponseParams : List PyParam :=
  [⟨"prompt", false⟩, ⟨"request_id", true⟩]

/--
Python positional-argument binding: a call with `numArgs` positional arguments
binds iff the count is between the number of required parameters and the total
number of parameters; otherwise the call raises `TypeError`.
-/
def bindPositional (params : List PyParam) (numArgs : Nat) : Bool :=
  (params.filter (fun p => !p.hasDefault)).length ≤ numArgs && numArgs ≤ params.length

/--
The positional arguments the dispatcher passes through `run_in_threadpool`
(lines 72-78 of `main.py`): `payload.message, request_id, session_id,
payload.model` — four positional arguments.
-/
def dispatcherPositionalArgs (message requestId : String)
    (sessionId modelOverride : Option String) : List (Option String) :=
  [Option.some message, Option.some requestId, sessionId, modelOverride]

/-- The validated request body `ChatRequest` of `main.py` (lines 49-52). -/
structure ChatRequestBody where
  message : String
  model : Option String
  session_id : Option String
deriving DecidableEq, Repr

/--
Python `a or b` on `None`-able strings: `None` and `""` are falsy, so the
left operand is kept exactly when it is a non-empty string.
-/
def pyOrStr : Option String → Option String → Option String
  | Option.some s, b => if s = "" then b else Option.some s
  | Option.none, b => b

/--
Line 69 of `main.py`:
`session_id = payload.session_id or request.headers.get("X-Session-ID")`.
-/
def resolveSessionId (bodySession headerSession : Option String) : Option String :=
  pyOrStr bodySession headerSession

/--
Lines 40-41 of `main.py` (the request-id middleware):
`request_id = request.headers.get("X-Request-ID") or str(uuid4())`,
with the freshly generated UUID passed in as `freshUuid`.
-/
def resolveRequestId (headerValue : Option String) (freshUuid : String) : String :=
  match pyOrStr headerValue (Option.some freshUuid) with
  | Option.some s => s
  | Option.none => freshUuid

/-- The `input` mapping of the error span built at lines 101-105 of `main.py`. -/
structure SpanInput where
  path : String
  method : String
  request_id : Option String
deriving DecidableEq, Repr

/-- The `metadata` mapping of the error span built at lines 106-109 of `main.py`. -/
structure SpanMetadata where
  error : String
  error_type : String
deriving DecidableEq, Repr

/-- A Langfuse span as opened by `start_as_current_span` (lines 99-112). -/
structure TraceSpan where
  name : String
  input : SpanInput
  metadata : SpanMetadata
  level : String
  status_message : String
deriving DecidableEq, Repr

/-- The parts of the inbound `Request` object consulted by `_record_error_span`. -/
structure RequestInfo where
  path : String
  method : String
deriving DecidableEq, Repr

/--
`_record_error_span` (lines 83-114 of `main.py`): returns the list of spans it
emits — exactly one when the Langfuse client is available, none otherwise
(lines 94-95).  `stateRequestId` is `getattr(request.state, "request_id", None)`
and `errorMessage` is `str(error)`.
-/
def recordErrorSpan (clientAvailable : Bool) (req : RequestInfo)
    (stateRequestId : Option String) (errorMessage errorType : String) : List TraceSpan :=
  if clientAvailable then
    [{ name := errorType
       input := ⟨req.path, req.method, stateRequestId⟩
       metadata := ⟨errorMessage, errorType⟩
       level := "error"
       status_message := "error" }]
  else []

/-- The JSON body of a 500 response built by the two exception handlers. -/
structure ErrorBody where
  detail : String
  request_id : Option String
deriving DecidableEq, Repr

/--
`llm_service_exception_handler` (lines 117-134 of `main.py`): records an error
span with category label `"LLMServiceError"`, then returns status 500 with body
`{detail: "An error occurred while calling the LLM.", request_id}`.
Result: the spans emitted, paired with (status, body).
-/
def llmServiceExceptionHandler (clientAvailable : Bool) (req : RequestInfo)
    (stateRequestId : Option String) (exc : LLMServiceError) :
    List TraceSpan × (Nat × ErrorBody) :=
  (recordErrorSpan clientAvailable req stateRequestId exc.message "LLMServiceError",
   (500, ⟨"An error occurred while calling the LLM.", stateRequestId⟩))

/--
`generic_exception_handler` (lines 137-154 of `main.py`): records an error span
with category label `"UnhandledException"`, then returns status 500 with body
`{detail: "Internal server error.", request_id}`.
-/
def genericExceptionHandler (clientAvailable : Bool) (req : RequestInfo)
    (stateRequestId : Option String) (excMessage : String) :
    List TraceSpan × (Nat × ErrorBody) :=
  (recordErrorSpan clientAvailable req stateRequestId excMessage "UnhandledException",
   (500, ⟨"Internal server error.", stateRequestId⟩))

/-- Outcome of running the body of `chat_endpoint` (lines 61-80 of `main.py`). -/
inductive EndpointOutcome where
  | ok (text : String)
  | serviceError (e : LLMServiceError)
  | typeError
deriving DecidableEq, Repr

/--
The Python message of the `TypeError` raised when the four-positional-argument
call of lines 72-78 of `main.py` is bound against the two-parameter signature
of `get_llm_response`.
-/
def dispatchTypeErrorMessage : String :=
  "get_llm_response() takes from 1 to 2 positional arguments but 4 were given"

/--
`chat_endpoint` (lines 61-80 of `main.py`): resolves the session id, then calls
`get_llm_response` through `run_in_threadpool` with the four positional
arguments of `dispatcherPositionalArgs`.  The call first binds the arguments
against `getLlmResponseParams`; when binding fails the call raises `TypeError`
(an unhandled exception), otherwise the service result or its
`LLMServiceError` is propagated.  On success a `ChatResponse` echoing the
request id is produced by line 80.
-/
def chatEndpoint (stateRequestId : String) (payload : ChatRequestBody)
    (sessionHeader : Option String) (providerCall : Except String ChatCompletion) :
    EndpointOutcome :=
  let sessionId := resolveSessionId payload.session_id sessionHeader
  let args := dispatcherPositionalArgs payload.message stateRequestId sessionId payload.model
  if bindPositional getLlmResponseParams args.length then
    match getLlmResponse providerCall with
    | .ok text => .ok text
    | .error e => .serviceError e
  else .typeError

/-- The body of an HTTP response: a `ChatResponse` (lines 55-57) or an error body. -/
inductive ResponseBody where
  | chat (response : String) (request_id : String)
  | error (body : ErrorBody)
deriving DecidableEq, Repr

/-- An HTTP response as seen by the caller: status, `X-Request-ID` header, body. -/
structure HttpResponse where
  status : Nat
  xRequestId : Option String
  body : ResponseBody
deriving DecidableEq, Repr

/-- The fields of an inbound `POST /chat` request consulted by the application. -/
structure InboundRequest where
  path : String
  method : String
  requestIdHeader : Option String
  sessionIdHeader : Option String
  payload : ChatRequestBody
deriving DecidableEq, Repr

/--
One full pass of a `POST /chat` request through the application: the middleware
of lines 34-46 establishes the request id (header value if non-empty, else the
fresh UUID) and stores it on the request state; the endpoint runs; a
`ChatResponse` is returned as a 200, an `LLMServiceError` is converted by
`llmServiceExceptionHandler`, any other exception by
`genericExceptionHandler`; finally the middleware writes the established id
into the `X-Request-ID` response header (line 45).  Returns the response and
the spans emitted.
-/
def handleRequest (clientAvailable : Bool) (freshUuid : String)
    (req : InboundRequest) (providerCall : Except String ChatCompletion) :
    HttpResponse × List TraceSpan :=
  let rid := resolveRequestId req.requestIdHeader freshUuid
  let info : RequestInfo := ⟨req.path, req.method⟩
  let inner : (Nat × ResponseBody) × List TraceSpan :=
    match chatEndpoint rid req.payload req.sessionIdHeader providerCall with
    | .ok text => ((200, .chat text rid), [])
    | .serviceError e =>
        let r := llmServiceExceptionHandler clientAvailable info (Option.some rid) e
        ((r.2.1, .error r.2.2), r.1)
    | .typeError =>
        let r := genericExceptionHandler clientAvailable info (Option.some rid)
          dispatchTypeErrorMessage
        ((r.2.1, .error r.2.2), r.1)
  ({ status := inner.1.1, xRequestId := Option.some rid, body := inner.1.2 }, inner.2)

/-- The request id carried in a response body, when present. -/
def bodyRequestId : ResponseBody → Option String
  | .chat _ rid => Option.some rid
  | .error b => b.request_id

/-- Python `str` of a dict with string keys and values (used by the claim model below). -/
def pyStrOfFields (fields : List (String × String)) : String :=
  "\x7b" ++
    String.intercalate ", "
      (fields.map (fun kv => "\x27" ++ kv.1 ++ "\x27: \x27" ++ kv.2 ++ "\x27")) ++
  "\x7d"

/--
Modelled from the words of claim C4, for comparison with the source model:
"the text of each part is extracted, falling back to a string conversion of the
whole part when the part has no text field".
-/
def specPartTextC4 : ContentPart → String
  | .dict fields =>
      match fields.lookup "text" with
      | Option.some t => t
      | Option.none => pyStrOfFields fields
  | .obj s => s

/--
Modelled from the words of claim C4, for comparison with the source model:
the non-empty extracted texts are joined with newline separators and returned
if the join is non-empty after trimming; an empty sequence or an all-empty
join fails with EmptyResponse.
-/
def specNormalizePartsC4 (parts : List ContentPart) : Except LLMServiceError String :=
  let combined := String.intercalate "\n" ((parts.map specPartTextC4).filter (fun t => t ≠ ""))
  if parts = [] ∨ pyStrip combined = "" then .error .emptyResponse
  else .ok combined

/--
Amended part extraction: a mapping part contributes its text field, or the
empty string when it has none (the string-conversion fallback applies only to
non-mapping parts); this matches line 60 of `llm_service.py`.
-/
def amendedPartText : ContentPart → String
  | .dict fields =>
      match fields.lookup "text" with
      | Option.some t => t
      | Option.none => ""
  | .obj s => s

/-- Amended normalization of a parts-shaped content, built on `amendedPartText`. -/
def amendedNormalizeParts (parts : List ContentPart) : Except LLMServiceError String :=
  let combined := String.intercalate "\n" ((parts.map amendedPartText).filter (fun t => t ≠ ""))
  if parts = [] ∨ pyStrip combined = "" then .error .emptyResponse
  else .ok combined

/--
Modelled from the words of claim C8, for comparison with the source model:
"the session_id field of the request body if supplied, else the incoming
X-Session-ID header, else absent".
-/
def specResolveSessionC8 : Option String → Option String → Option String
  | Option.some s, _ => Option.some s
  | Option.none, h => h

/-- Concrete inbound request of the ping scenario: no identity headers, body message "ping". -/
def pingRequest : InboundRequest :=
  ⟨"/chat", "POST", Option.none, Option.none, ⟨"ping", Option.none, Option.none⟩⟩

/-- Concrete provider completion whose sole choice carries the plain string "pong". -/
def pongCompletion : ChatCompletion := ⟨[⟨.str "pong"⟩]⟩

/-- Concrete inbound request carrying an `X-Request-ID` header with the empty value. -/
def emptyHeaderRequest : InboundRequest :=
  ⟨"/chat", "POST", Option.some "", Option.none, ⟨"ping", Option.none, Option.none⟩⟩

/-- Helper: `amendedPartText` agrees with the source extraction `partText`. -/
theorem amendedPartText_eq (p : ContentPart) : amendedPartText p = partText p := by
  cases p with
  | dict fields => cases h : fields.lookup "text" <;> simp [amendedPartText, partText, h]
  | obj s => rfl

/-- Helper: the middleware writes the entry request id into the response header. -/
theorem handleRequest_xRequestId (avail : Bool) (fresh : String)
    (req : InboundRequest) (providerCall : Except String ChatCompletion) :
    (handleRequest avail fresh req providerCall).1.xRequestId =
      Option.some (resolveRequestId req.requestIdHeader fresh) := rfl

/-- Helper: every response body carries the entry request id. -/
theorem handleRequest_bodyRequestId (avail : Bool) (fresh : String)
    (req : InboundRequest) (providerCall : Except String ChatCompletion) :
    bodyRequestId (handleRequest avail fresh req providerCall).1.body =
      Option.some (resolveRequestId req.requestIdHeader fresh) := by
  cases h : chatEndpoint (resolveRequestId req.requestIdHeader fresh) req.payload
      req.sessionIdHeader providerCall <;>
    simp [handleRequest, h, bodyRequestId, llmServiceExceptionHandler,
      genericExceptionHandler]

/--
C1: the claim states that the dispatcher invocation of `get_llm_response` with
`(message, request_id, session_id, model)` binds all four arguments and that
the traced metadata includes the session id when present.  In the source the
function signature has only the two parameters `(prompt, request_id=None)`, so
the four-positional-argument call of `main.py` lines 72-78 fails to bind
(raising `TypeError`), and the trace metadata of lines 71-74 of
`llm_service.py` never contains a session id under any request id.
-/
theorem dispatcher_call_binding_fails :
    bindPositional getLlmResponseParams
      (dispatcherPositionalArgs "ping" "req-1" (Option.some "sess-1") Option.none).length
      = false
    ∧ ∀ requestId : Option String,
        (serviceTraceMetadata requestId).lookup "session_id" = Option.none := by
  refine ⟨by decide, ?_⟩
  intro requestId
  cases requestId with
  | none => rfl
  | some rid =>
      by_cases h : rid = "" <;> simp [serviceTraceMetadata, h]

/--
C2: the claim states that `POST /chat` with body message "ping", when the
provider returns the plain string "pong", yields a 200 response with body
response "pong".  In the source the dispatcher call never binds (see C1), so
the request ends in the generic exception handler: the second conjunct shows
the provider response itself would normalize to "pong", yet the full pass
returns 500 with detail "Internal server error.".
-/
theorem ping_scenario_returns_500 :
    (handleRequest true "generated-uuid" pingRequest (.ok pongCompletion)).1 =
      ⟨500, Option.some "generated-uuid",
        .error ⟨"Internal server error.", Option.some "generated-uuid"⟩⟩
    ∧ getLlmResponse (.ok pongCompletion) = .ok "pong" :=
  ⟨rfl, rfl⟩

/--
C3: the claim states that a string content that is empty after trimming fails
with EmptyResponse.  In the source the raise at line 55 of `llm_service.py`
sits inside the `try` whose `except Exception` clause (line 66) catches it and
re-raises the MalformedResponse message instead, so empty and whitespace-only
strings are misreported as MalformedResponse; the remaining conjuncts show the
parts of the claim that do hold (verbatim untrimmed return of a non-blank
string, EmptyResponse for absent content).
-/
theorem empty_string_misreported_as_malformed :
    normalizeContent (.str "") = .error .malformedResponse
    ∧ normalizeContent (.str "   ") = .error .malformedResponse
    ∧ normalizeContent .none = .error .emptyResponse
    ∧ normalizeContent (.str "hello") = .ok "hello"
    ∧ normalizeContent (.str " hi ") = .ok " hi " :=
  ⟨rfl, rfl, rfl, rfl, rfl⟩

/--
C4 counterexample: for the single-part content `[{"foo": "bar"}]` the claim
model `specNormalizePartsC4` (string conversion of a part without a text
field) returns the non-empty dict rendering, while the source drops the part
(a dict without a text field contributes `part.get("text", "") = ""`) and
fails with EmptyResponse — so the claim as stated is false at this input.
-/
theorem textless_dict_part_counterexample :
    normalizeContent (.parts [.dict [("foo", "bar")]]) = .error .emptyResponse
    ∧ specNormalizePartsC4 [.dict [("foo", "bar")]] =
        .ok "\x7b\x27foo\x27: \x27bar\x27\x7d"
    ∧ ("\x7b\x27foo\x27: \x27bar\x27\x7d" : String) ≠ "" :=
  ⟨rfl, rfl, by decide⟩

/--
C4 amended: the string-conversion fallback applies only to non-mapping parts —
a mapping part without a text field contributes the empty string and is
dropped from the join; with that amendment the normalization of parts-shaped
content is exactly `amendedNormalizeParts`, and the worked examples of the
claim hold.
-/
theorem parts_normalization_matches_amended :
    (∀ parts : List ContentPart,
      normalizeContent (.parts parts) = amendedNormalizeParts parts)
    ∧ normalizeContent (.parts [.dict [("text", "a")], .dict [("text", "b")]]) = .ok "a\nb"
    ∧ normalizeContent (.parts []) = .error .emptyResponse
    ∧ normalizeContent (.parts [.dict [("text", "")], .dict [("text", "")]]) =
        .error .emptyResponse := by
  refine ⟨?_, rfl, rfl, rfl⟩
  intro parts
  have hfun : amendedPartText = partText := funext amendedPartText_eq
  have hcomb : String.intercalate "\n" ((parts.map partText).filter (fun t => t ≠ "")) =
      combineParts parts := rfl
  simp only [amendedNormalizeParts, hfun, hcomb]
  by_cases hp : parts = []
  · subst hp; rfl
  · by_cases hc : pyStrip (combineParts parts) = "" <;>
      simp [normalizeContent, getLlmResponse, extractFromCompletion, tryExtract, hp, hc]

/--
C5: any exception from the outbound provider call is translated into the
CallFailed variant of the service error (the raw exception never propagates),
and the boundary handler for service errors returns a 500 response whose body
carries the request id established for the request.
-/
theorem provider_exception_becomes_callFailed (excMessage : String) (avail : Bool)
    (info : RequestInfo) (rid : String) :
    getLlmResponse (.error excMessage) = .error .callFailed
    ∧ (llmServiceExceptionHandler avail info (Option.some rid) .callFailed).2 =
        (500, ⟨"An error occurred while calling the LLM.", Option.some rid⟩) :=
  ⟨rfl, rfl⟩

/--
C6: on every path through the application — success, service error, or
unhandled exception — the response carries the request id established at
entry by the middleware, both in the `X-Request-ID` header and in the
request_id field of the body.
-/
theorem response_carries_entry_request_id (avail : Bool) (fresh : String)
    (req : InboundRequest) (providerCall : Except String ChatCompletion) :
    (handleRequest avail fresh req providerCall).1.xRequestId =
      Option.some (resolveRequestId req.requestIdHeader fresh)
    ∧ bodyRequestId (handleRequest avail fresh req providerCall).1.body =
      Option.some (resolveRequestId req.requestIdHeader fresh) :=
  ⟨handleRequest_xRequestId avail fresh req providerCall,
   handleRequest_bodyRequestId avail fresh req providerCall⟩

/--
C7 counterexample: an inbound request CARRYING an `X-Request-ID` header whose
value is the empty string does not get that value echoed back — the middleware
treats the falsy empty string as absent and uses the fresh UUID instead, so
the universally stated "response header equals the header value exactly" part
of the claim fails at this input.
-/
theorem empty_request_id_header_counterexample :
    (handleRequest true "fresh-uuid-1234" emptyHeaderRequest (.ok pongCompletion)).1.xRequestId =
      Option.some "fresh-uuid-1234"
    ∧ (Option.some "fresh-uuid-1234" : Option String) ≠ Option.some "" :=
  ⟨rfl, by decide⟩

/--
C7 amended: the middleware uses the incoming `X-Request-ID` header value when
present and non-empty, otherwise the freshly generated UUID; the response
header echoes the header value exactly whenever that value is non-empty, and
carries the fresh UUID when the header is absent or empty.
-/
theorem request_id_precedence_amended (avail : Bool) (fresh : String)
    (req : InboundRequest) (providerCall : Except String ChatCompletion) :
    (∀ v : String, req.requestIdHeader = Option.some v → v ≠ "" →
      (handleRequest avail fresh req providerCall).1.xRequestId = Option.some v)
    ∧ ((req.requestIdHeader = Option.none ∨ req.requestIdHeader = Option.some "") →
      (handleRequest avail fresh req providerCall).1.xRequestId = Option.some fresh) := by
  constructor
  · intro v hv hne
    rw [handleRequest_xRequestId, hv]
    simp [resolveRequestId, pyOrStr, hne]
  · intro h
    rw [handleRequest_xRequestId]
    rcases h with h | h <;> rw [h] <;> rfl

/-- Witness for the amended C7 theorem at concrete inputs. -/
theorem request_id_precedence_amended_witness :
    (handleRequest true "f-uuid"
        ⟨"/chat", "POST", Option.some "abc", Option.none,
          ⟨"ping", Option.none, Option.none⟩⟩
        (.ok pongCompletion)).1.xRequestId = Option.some "abc"
    ∧ (handleRequest true "f-uuid" pingRequest (.ok pongCompletion)).1.xRequestId =
        Option.some "f-uuid" :=
  ⟨(request_id_precedence_amended true "f-uuid"
      ⟨"/chat", "POST", Option.some "abc", Option.none,
        ⟨"ping", Option.none, Option.none⟩⟩
      (.ok pongCompletion)).1 "abc" rfl (by decide),
   (request_id_precedence_amended true "f-uuid" pingRequest
      (.ok pongCompletion)).2 (Or.inl rfl)⟩

/--
C8 counterexample: a body whose session_id field is supplied as the empty
string does not take precedence — the source resolution
(`payload.session_id or headers.get("X-Session-ID")`) falls back to the
header value, while the claim model `specResolveSessionC8` keeps the supplied
empty field, so the claim as stated is false at this input.
-/
theorem empty_body_session_counterexample :
    resolveSessionId (Option.some "") (Option.some "hdr-sess") = Option.some "hdr-sess"
    ∧ specResolveSessionC8 (Option.some "") (Option.some "hdr-sess") = Option.some ""
    ∧ (Option.some "hdr-sess" : Option String) ≠ Option.some "" :=
  ⟨rfl, rfl, by decide⟩

/--
C8 amended: the session identifier resolves to the body field when it is
supplied and non-empty, else to the incoming `X-Session-ID` header value, else
absent (a body field supplied as the empty string is treated as absent); when
neither source supplies a value the result is absent — no placeholder.
-/
theorem session_precedence_amended (bodySession headerSession : Option String) :
    (∀ s : String, bodySession = Option.some s → s ≠ "" →
      resolveSessionId bodySession headerSession = Option.some s)
    ∧ ((bodySession = Option.none ∨ bodySession = Option.some "") →
      resolveSessionId bodySession headerSession = headerSession)
    ∧ (bodySession = Option.none → headerSession = Option.none →
      resolveSessionId bodySession headerSession = Option.none) := by
  refine ⟨?_, ?_, ?_⟩
  · intro s hs hne
    rw [hs]
    simp [resolveSessionId, pyOrStr, hne]
  · rintro (h | h) <;> rw [h] <;> rfl
  · intro h1 h2
    rw [h1, h2]
    rfl

/-- Witness for the amended C8 theorem at concrete inputs. -/
theorem session_precedence_amended_witness :
    resolveSessionId (Option.some "body-sess") (Option.some "hdr-sess") =
      Option.some "body-sess"
    ∧ resolveSessionId Option.none Option.none = Option.none :=
  ⟨(session_precedence_amended (Option.some "body-sess") (Option.some "hdr-sess")).1
      "body-sess" rfl (by decide),
   (session_precedence_amended Option.none Option.none).2.2 rfl rfl⟩

/--
C9: with the tracing client available, each boundary handler records exactly
one error-level span whose input captures the request path, method and request
id and whose metadata captures the error message and category label, and then
returns a 500 response with the fixed-shape body of detail and request_id —
detail "An error occurred while calling the LLM." for service errors,
"Internal server error." for unexpected errors.
-/
theorem error_boundary_span_and_body (info : RequestInfo) (rid : Option String)
    (e : LLMServiceError) (excMessage : String) :
    (llmServiceExceptionHandler true info rid e).1 =
      [⟨"LLMServiceError", ⟨info.path, info.method, rid⟩,
        ⟨e.message, "LLMServiceError"⟩, "error", "error"⟩]
    ∧ (genericExceptionHandler true info rid excMessage).1 =
      [⟨"UnhandledException", ⟨info.path, info.method, rid⟩,
        ⟨excMessage, "UnhandledException"⟩, "error", "error"⟩]
    ∧ (llmServiceExceptionHandler true info rid e).2 =
      (500, ⟨"An error occurred while calling the LLM.", rid⟩)
    ∧ (genericExceptionHandler true info rid excMessage).2 =
      (500, ⟨"Internal server error.", rid⟩) :=
  ⟨rfl, rfl, rfl, rfl⟩

/--
C10: a body session_id supplied as the empty string is treated as absent — the
resolution falls back to whatever the `X-Session-ID` header supplies (absent
when the header is also missing), so an explicitly empty body field never
takes precedence over a header value.
-/
theorem empty_body_session_falls_back_to_header (headerSession : Option String) :
    resolveSessionId (Option.some "") headerSession = headerSession := rfl

end LLMTracingDemo
